import Mathlib

/-!
Verification development for the Qase MCP server (`src/main.py`).

The only non-mechanical component of the repository is the request
dispatcher `make_request`, which attaches the credential, issues the HTTP
call, retries on HTTP 429 with a `Retry-After`-driven wait, and normalizes
every failure into a `{"error": message}` dictionary.  We embed it as a
pure Lean function over an explicit oracle describing what the network
returns on each physical attempt, tracking the number of physical calls
issued and the sequence of wait durations.  The thin tool wrappers that
build query-parameter / body dictionaries from optional arguments
(`qase_list_test_cases`, `qase_create_test_case`, `qase_update_test_case`,
`qase_create_test_plan`) are embedded as the association lists they build,
preserving Python's insertion order and its truthiness vs `is not None`
guards.
-/

namespace QaseMcp

/-- A JSON value, the payload type for request bodies, query-parameter
values and parsed response bodies. -/
inductive Json where
  | null : Json
  | bool (b : Bool) : Json
  | num (n : Int) : Json
  | str (s : String) : Json
  | arr (xs : List Json) : Json
  | obj (fields : List (String × Json)) : Json

/-- A Python dict with string keys in insertion order. -/
abbrev Params := List (String × Json)

/-- One HTTP response as seen by the dispatcher: the status code, the
`Retry-After` header if present, the raw body text, and the result of
handing the body text to the (external) JSON parser. -/
structure HttpResponse where
  status : Nat
  retryAfter : Option String
  bodyText : String
  bodyJson : Except String Json

/-- The outcome of one physical network attempt: either a response came
back, or the transport layer failed (connection refused, DNS, timeout),
which in the source raises `httpx.RequestError`. -/
inductive Attempt where
  | resp (r : HttpResponse) : Attempt
  | transportErr (msg : String) : Attempt

/-- The dictionary `make_request` returns, viewed as the discriminated
union of the spec: `success body` embeds the parsed JSON body returned on
2xx, and `failure msg` embeds the `{"error": msg}` dictionary. -/
inductive Response where
  | success (body : Json) : Response
  | failure (msg : String) : Response

/-- The observable behaviour of one logical `make_request` call: the
returned value, the number of physical HTTP attempts issued, and the
durations (in seconds) passed to `asyncio.sleep`, in order. -/
structure DispatchOutcome where
  result : Response
  calls : Nat
  waits : List Int

/-- Constant `MAX_RETRIES = 3` from the source configuration. -/
def MAX_RETRIES : Nat := 3

/-- Constant `RETRY_DELAY = 60` seconds from the source configuration. -/
def RETRY_DELAY : Int := 60

/-- After a leading digit, CPython's decimal literal grammar allows
further digits, with single underscores permitted only between digits. -/
def okDigitsTail : List Char → Bool
  | [] => true
  | '_' :: c :: rest => c.isDigit && okDigitsTail rest
  | ['_'] => false
  | c :: rest => c.isDigit && okDigitsTail rest

/-- A nonempty run of decimal digits with single underscores between
digits (the digit part of a CPython `int()` literal). -/
def pyIntLiteral : List Char → Bool
  | [] => false
  | c :: rest => c.isDigit && okDigitsTail rest

/-- Strips one optional leading sign, returning whether it was `-`. -/
def stripSign : List Char → Bool × List Char
  | '+' :: rest => (false, rest)
  | '-' :: rest => (true, rest)
  | cs => (false, cs)

/-- Numeric value of a run of decimal digits. -/
def digitsVal (cs : List Char) : Nat :=
  cs.foldl (fun a c => a * 10 + (c.toNat - '0'.toNat)) 0

/-- Strips leading and trailing whitespace from a character list. -/
def stripWs (cs : List Char) : List Char :=
  ((cs.dropWhile Char.isWhitespace).reverse.dropWhile Char.isWhitespace).reverse

/-- Model of CPython `int(s)` on a string: strip surrounding whitespace,
accept an optional sign followed by decimal digits (with underscore
separators); `none` models the `ValueError` raised otherwise. -/
def pyInt (s : String) : Option Int :=
  let (neg, ds) := stripSign (stripWs s.toList)
  if pyIntLiteral ds then
    let v : Int := Int.ofNat (digitsVal (ds.filter fun c => c ≠ '_'))
    some (if neg then -v else v)
  else
    none

/-- The wait computed by `int(response.headers.get("Retry-After",
RETRY_DELAY))`: the default 60 when the header is absent, the parsed value
when it parses, and `none` (a raised `ValueError`) when the header is
present but unparsable. -/
def retryWait (header : Option String) : Option Int :=
  match header with
  | none => some RETRY_DELAY
  | some s => pyInt s

/-- Embedding of `make_request` from `src/main.py`.  `token` is the
`QASE_API_TOKEN` read from the environment (empty string when unset);
`net k` is what the network does on the physical attempt issued with
retry counter `k`.  Mirrors the source line by line: the missing-token
guard, the 429 branch with its bounded recursion, `raise_for_status`
(any non-2xx status raises `httpx.HTTPStatusError`), `response.json()`,
and the three `except` clauses that stringify every exception into an
`{"error": ...}` dictionary. -/
def make_request (token method endpoint : String) (params : Option Params)
    (json_data : Option Json) (net : Nat → Attempt) (retries : Nat) :
    DispatchOutcome :=
  if token = "" then
    { result := .failure "QASE_API_TOKEN environment variable is not set",
      calls := 0, waits := [] }
  else
    match net retries with
    | .transportErr msg =>
        { result := .failure ("Request error: " ++ msg), calls := 1, waits := [] }
    | .resp r =>
        if r.status = 429 then
          if _h : retries < MAX_RETRIES then
            match r.retryAfter with
            | none =>
                let rest := make_request token method endpoint params json_data
                  net (retries + 1)
                { result := rest.result, calls := rest.calls + 1,
                  waits := RETRY_DELAY :: rest.waits }
            | some s =>
                match pyInt s with
                | some d =>
                    let rest := make_request token method endpoint params
                      json_data net (retries + 1)
                    { result := rest.result, calls := rest.calls + 1,
                      waits := d :: rest.waits }
                | none =>
                    { result := .failure
                        ("Unexpected error: invalid literal for int() with base 10: '"
                          ++ (s ++ "'")),
                      calls := 1, waits := [] }
          else
            { result := .failure "Rate limit exceeded after maximum retries",
              calls := 1, waits := [] }
        else if 200 ≤ r.status ∧ r.status < 300 then
          match r.bodyJson with
          | .ok j => { result := .success j, calls := 1, waits := [] }
          | .error m =>
              { result := .failure ("Unexpected error: " ++ m),
                calls := 1, waits := [] }
        else
          { result := .failure
              ("HTTP error: " ++ toString r.status ++ " - " ++ r.bodyText),
            calls := 1, waits := [] }
termination_by MAX_RETRIES - retries
decreasing_by all_goals omega

/-- Step lemma: with no token configured the dispatcher fails before any
network activity, on every retry level. -/
theorem mr_no_token (method endpoint : String) (params : Option Params)
    (json_data : Option Json) (net : Nat → Attempt) (retries : Nat) :
    make_request "" method endpoint params json_data net retries =
      { result := .failure "QASE_API_TOKEN environment variable is not set",
        calls := 0, waits := [] } := by
  rw [make_request.eq_def]
  simp

/-- Step lemma: a transport-level error on the current attempt yields the
`Request error` failure with exactly one call and no waits. -/
theorem mr_transport (token method endpoint : String) (params : Option Params)
    (json_data : Option Json) (net : Nat → Attempt) (retries : Nat)
    (msg : String) (htok : token ≠ "")
    (hnet : net retries = .transportErr msg) :
    make_request token method endpoint params json_data net retries =
      { result := .failure ("Request error: " ++ msg), calls := 1, waits := [] } := by
  rw [make_request.eq_def]
  simp [htok, hnet]

/-- Step lemma: a 429 response while budget remains, with a wait duration
`d` computed from the `Retry-After` header, sleeps `d` and recurses with
the counter incremented. -/
theorem mr_429_retry (token method endpoint : String) (params : Option Params)
    (json_data : Option Json) (net : Nat → Attempt) (retries : Nat)
    (r : HttpResponse) (d : Int) (htok : token ≠ "")
    (hnet : net retries = .resp r) (hstat : r.status = 429)
    (hlt : retries < MAX_RETRIES) (hdur : retryWait r.retryAfter = some d) :
    make_request token method endpoint params json_data net retries =
      { result := (make_request token method endpoint params json_data net
          (retries + 1)).result,
        calls := (make_request token method endpoint params json_data net
          (retries + 1)).calls + 1,
        waits := d :: (make_request token method endpoint params json_data net
          (retries + 1)).waits } := by
  rw [make_request.eq_def]
  cases hh : r.retryAfter with
  | none =>
      rw [hh] at hdur
      simp only [retryWait] at hdur
      cases hdur
      simp [htok, hnet, hstat, hlt, hh]
  | some s =>
      rw [hh] at hdur
      simp only [retryWait] at hdur
      simp [htok, hnet, hstat, hlt, hh, hdur]

/-- Step lemma: a 429 response whose `Retry-After` header is present but
unparsable raises `ValueError` inside the try block, which the generic
handler turns into an `Unexpected error` failure — no wait, no retry. -/
theorem mr_429_badheader (token method endpoint : String)
    (params : Option Params) (json_data : Option Json) (net : Nat → Attempt)
    (retries : Nat) (r : HttpResponse) (s : String) (htok : token ≠ "")
    (hnet : net retries = .resp r) (hstat : r.status = 429)
    (hlt : retries < MAX_RETRIES) (hhdr : r.retryAfter = some s)
    (hbad : pyInt s = none) :
    make_request token method endpoint params json_data net retries =
      { result := .failure
          ("Unexpected error: invalid literal for int() with base 10: '"
            ++ (s ++ "'")),
        calls := 1, waits := [] } := by
  rw [make_request.eq_def]
  simp [htok, hnet, hstat, hlt, hhdr, hbad]

/-- Step lemma: a 429 response with the retry budget exhausted yields the
rate-limit failure with exactly one further call and no wait. -/
theorem mr_429_exhausted (token method endpoint : String)
    (params : Option Params) (json_data : Option Json) (net : Nat → Attempt)
    (retries : Nat) (r : HttpResponse) (htok : token ≠ "")
    (hnet : net retries = .resp r) (hstat : r.status = 429)
    (hge : ¬ retries < MAX_RETRIES) :
    make_request token method endpoint params json_data net retries =
      { result := .failure "Rate limit exceeded after maximum retries",
        calls := 1, waits := [] } := by
  rw [make_request.eq_def]
  simp [htok, hnet, hstat, hge]

/-- Step lemma: a 2xx response returns the JSON parse outcome — the parsed
value as a success, or the parse error as an `Unexpected error` failure. -/
theorem mr_2xx (token method endpoint : String) (params : Option Params)
    (json_data : Option Json) (net : Nat → Attempt) (retries : Nat)
    (r : HttpResponse) (htok : token ≠ "") (hnet : net retries = .resp r)
    (h2 : 200 ≤ r.status ∧ r.status < 300) :
    make_request token method endpoint params json_data net retries =
      match r.bodyJson with
      | .ok j => { result := .success j, calls := 1, waits := [] }
      | .error m =>
          { result := .failure ("Unexpected error: " ++ m),
            calls := 1, waits := [] } := by
  have h429 : r.status ≠ 429 := by omega
  rw [make_request.eq_def]
  simp [htok, hnet, h429, h2]

/-- Step lemma: any non-429 non-2xx status makes `raise_for_status` throw
`HTTPStatusError`, normalized to the `HTTP error` failure. -/
theorem mr_http_error (token method endpoint : String) (params : Option Params)
    (json_data : Option Json) (net : Nat → Attempt) (retries : Nat)
    (r : HttpResponse) (htok : token ≠ "") (hnet : net retries = .resp r)
    (h429 : r.status ≠ 429) (hno2 : ¬ (200 ≤ r.status ∧ r.status < 300)) :
    make_request token method endpoint params json_data net retries =
      { result := .failure
          ("HTTP error: " ++ toString r.status ++ " - " ++ r.bodyText),
        calls := 1, waits := [] } := by
  rw [make_request.eq_def]
  simp [htok, hnet, h429, hno2]

/-- C1: if every attempt comes back HTTP 429 (with a `Retry-After` header
that is absent or parses, giving wait `d k` on attempt `k`), the
dispatcher issues the initial call plus at most `MAX_RETRIES = 3`
retries — exactly 4 physical calls — waiting `d 0`, `d 1`, `d 2` between
attempts, then returns the rate-limit failure and issues no further
network calls, without raising. -/
theorem rate_limit_exhausts_after_max_retries (token method endpoint : String)
    (params : Option Params) (json_data : Option Json)
    (r : Nat → HttpResponse) (d : Nat → Int) (htok : token ≠ "")
    (hstat : ∀ k, (r k).status = 429)
    (hdur : ∀ k, retryWait (r k).retryAfter = some (d k)) :
    make_request token method endpoint params json_data
        (fun k => .resp (r k)) 0 =
      { result := .failure "Rate limit exceeded after maximum retries",
        calls := MAX_RETRIES + 1, waits := [d 0, d 1, d 2] } := by
  have e3 := mr_429_exhausted token method endpoint params json_data
    (fun k => Attempt.resp (r k)) 3 (r 3) htok rfl (hstat 3) (by decide)
  have e2 := mr_429_retry token method endpoint params json_data
    (fun k => Attempt.resp (r k)) 2 (r 2) (d 2) htok rfl (hstat 2) (by decide)
    (hdur 2)
  have e1 := mr_429_retry token method endpoint params json_data
    (fun k => Attempt.resp (r k)) 1 (r 1) (d 1) htok rfl (hstat 1) (by decide)
    (hdur 1)
  have e0 := mr_429_retry token method endpoint params json_data
    (fun k => Attempt.resp (r k)) 0 (r 0) (d 0) htok rfl (hstat 0) (by decide)
    (hdur 0)
  simp only [e0, Nat.reduceAdd, e1, e2, e3]
  simp [MAX_RETRIES]

/-- Witness for C1: a constant stream of 429 responses with
`Retry-After: 5` yields four calls, three 5-second waits, and the
rate-limit failure. -/
theorem rate_limit_exhausts_after_max_retries_witness :
    make_request "t" "GET" "/project" none none
        (fun _ => .resp ⟨429, some "5", "", .error "e"⟩) 0 =
      { result := .failure "Rate limit exceeded after maximum retries",
        calls := MAX_RETRIES + 1, waits := [5, 5, 5] } :=
  rate_limit_exhausts_after_max_retries "t" "GET" "/project" none none
    (fun _ => ⟨429, some "5", "", .error "e"⟩)
    (fun _ => 5) (by decide) (fun _ => rfl)
    (fun _ => (by decide : retryWait (some "5") = some 5))

/-- C2 counterexample: a 429 response whose `Retry-After` header is
`"soon"` (present but unparsable) does not fall back to the 60-second
default and retry; the `int()` call raises, the generic handler catches
it, and the dispatcher returns an `Unexpected error` failure after a
single call with no wait. -/
theorem retry_after_unparsable_no_retry_cex :
    make_request "t" "GET" "/case/DEMO" none none
        (fun _ => .resp ⟨429, some "soon", "", .error "e"⟩) 0 =
      { result := .failure
          "Unexpected error: invalid literal for int() with base 10: 'soon'",
        calls := 1, waits := [] } := by
  have h := mr_429_badheader "t" "GET" "/case/DEMO" none none
    (fun _ => .resp ⟨429, some "soon", "", .error "e"⟩) 0
    ⟨429, some "soon", "", .error "e"⟩
    "soon" (by decide) rfl rfl (by decide) rfl (by decide)
  rw [h]
  rfl

/-- C2 (amended): on a 429 with budget remaining, the wait before the
retry is the parsed `Retry-After` header, falling back to the 60-second
default only when the header is absent; in both of those cases the
dispatcher waits and retries with the counter incremented, but when the
header is present and unparsable as an integer it does not retry: the
`ValueError` is caught by the generic handler and an `Unexpected error`
failure is returned after that attempt, with no wait. -/
theorem retry_after_wait_selection (token method endpoint : String)
    (params : Option Params) (json_data : Option Json) (net : Nat → Attempt)
    (retries : Nat) (r : HttpResponse) (htok : token ≠ "")
    (hnet : net retries = .resp r) (hstat : r.status = 429)
    (hlt : retries < MAX_RETRIES) :
    (r.retryAfter = none →
      make_request token method endpoint params json_data net retries =
        { result := (make_request token method endpoint params json_data net
            (retries + 1)).result,
          calls := (make_request token method endpoint params json_data net
            (retries + 1)).calls + 1,
          waits := RETRY_DELAY :: (make_request token method endpoint params
            json_data net (retries + 1)).waits }) ∧
    (∀ s d, r.retryAfter = some s → pyInt s = some d →
      make_request token method endpoint params json_data net retries =
        { result := (make_request token method endpoint params json_data net
            (retries + 1)).result,
          calls := (make_request token method endpoint params json_data net
            (retries + 1)).calls + 1,
          waits := d :: (make_request token method endpoint params json_data
            net (retries + 1)).waits }) ∧
    (∀ s, r.retryAfter = some s → pyInt s = none →
      make_request token method endpoint params json_data net retries =
        { result := .failure
            ("Unexpected error: invalid literal for int() with base 10: '"
              ++ (s ++ "'")),
          calls := 1, waits := [] }) := by
  refine ⟨fun hh => ?_, fun s d hh hp => ?_, fun s hh hp => ?_⟩
  · exact mr_429_retry token method endpoint params json_data net retries r
      RETRY_DELAY htok hnet hstat hlt (by rw [hh]; rfl)
  · exact mr_429_retry token method endpoint params json_data net retries r
      d htok hnet hstat hlt (by rw [hh]; simpa [retryWait] using hp)
  · exact mr_429_badheader token method endpoint params json_data net retries
      r s htok hnet hstat hlt hh hp

/-- Witness for C2 (amended): the spec's concrete scenario — a 429 with
`Retry-After: 2` followed by a 2xx — waits 2 seconds and retries, and a
429 with `Retry-After: soon` fails without retrying. -/
theorem retry_after_wait_selection_witness :
    (make_request "t" "POST" "/case/DEMO" none none
        (fun k => if k = 0 then
          .resp ⟨429, some "2", "", .error "e"⟩
          else .resp ⟨200, none, "[1]", .ok (.arr [.num 1])⟩) 0 =
      { result := (make_request "t" "POST" "/case/DEMO" none none
          (fun k => if k = 0 then
            .resp ⟨429, some "2", "", .error "e"⟩
            else .resp ⟨200, none, "[1]", .ok (.arr [.num 1])⟩) 1).result,
        calls := (make_request "t" "POST" "/case/DEMO" none none
          (fun k => if k = 0 then
            .resp ⟨429, some "2", "", .error "e"⟩
            else .resp ⟨200, none, "[1]", .ok (.arr [.num 1])⟩) 1).calls + 1,
        waits := 2 :: (make_request "t" "POST" "/case/DEMO" none none
          (fun k => if k = 0 then
            .resp ⟨429, some "2", "", .error "e"⟩
            else .resp ⟨200, none, "[1]", .ok (.arr [.num 1])⟩) 1).waits }) ∧
    (make_request "t" "GET" "/case/DEMO" none none
        (fun _ => .resp ⟨429, some "soon", "", .error "e"⟩) 0 =
      { result := .failure
          ("Unexpected error: invalid literal for int() with base 10: '"
            ++ ("soon" ++ "'")),
        calls := 1, waits := [] }) :=
  ⟨(retry_after_wait_selection "t" "POST" "/case/DEMO" none none _ 0
      ⟨429, some "2", "", .error "e"⟩
      (by decide) rfl rfl (by decide)).2.1 "2" 2 rfl (by decide),
   (retry_after_wait_selection "t" "GET" "/case/DEMO" none none _ 0
      ⟨429, some "soon", "", .error "e"⟩
      (by decide) rfl rfl (by decide)).2.2 "soon" rfl (by decide)⟩

/-- C3: with no credential configured (the environment variable defaults
to the empty string), every request — any method, path, params, body, and
any behaviour of the network — returns the configuration failure
immediately, with zero physical network calls and no waits. -/
theorem no_credential_fails_without_network (method endpoint : String)
    (params : Option Params) (json_data : Option Json) (net : Nat → Attempt)
    (retries : Nat) :
    make_request "" method endpoint params json_data net retries =
      { result := .failure "QASE_API_TOKEN environment variable is not set",
        calls := 0, waits := [] } :=
  mr_no_token method endpoint params json_data net retries

/-- C4: on a 2xx response, the dispatcher's success payload is exactly
the parser's output for the body (round-trip identity), after a single
call; and if the body is not valid JSON, the parse error is surfaced as
an `Unexpected error` failure rather than an escaping exception. -/
theorem success_payload_roundtrip (token method endpoint : String)
    (params : Option Params) (json_data : Option Json) (net : Nat → Attempt)
    (retries : Nat) (r : HttpResponse) (htok : token ≠ "")
    (hnet : net retries = .resp r)
    (h2 : 200 ≤ r.status ∧ r.status < 300) :
    (∀ j, r.bodyJson = .ok j →
      make_request token method endpoint params json_data net retries =
        { result := .success j, calls := 1, waits := [] }) ∧
    (∀ m, r.bodyJson = .error m →
      make_request token method endpoint params json_data net retries =
        { result := .failure ("Unexpected error: " ++ m),
          calls := 1, waits := [] }) := by
  have h := mr_2xx token method endpoint params json_data net retries r htok
    hnet h2
  constructor
  · intro j hj
    rw [hj] at h
    exact h
  · intro m hm
    rw [hm] at h
    exact h

/-- Witness for C4: a 200 response parsing to `[1]` is returned as a
success wrapping `[1]` after one call, and a 200 response with an
unparsable body yields the `Unexpected error` failure. -/
theorem success_payload_roundtrip_witness :
    (make_request "t" "GET" "/project" none none
        (fun _ => .resp ⟨200, none, "[1]", .ok (.arr [.num 1])⟩) 0 =
      { result := .success (.arr [.num 1]), calls := 1, waits := [] }) ∧
    (make_request "t" "GET" "/project" none none
        (fun _ => .resp ⟨200, none, "not json", .error "Expecting value"⟩) 0 =
      { result := .failure ("Unexpected error: " ++ "Expecting value"),
        calls := 1, waits := [] }) :=
  ⟨(success_payload_roundtrip "t" "GET" "/project" none none _ 0
      ⟨200, none, "[1]", .ok (.arr [.num 1])⟩ (by decide) rfl (by decide)).1
      (.arr [.num 1]) rfl,
   (success_payload_roundtrip "t" "GET" "/project" none none _ 0
      ⟨200, none, "not json", .error "Expecting value"⟩ (by decide) rfl
      (by decide)).2 "Expecting value" rfl⟩

/-- C5: any response whose status is neither 429 nor 2xx produces a
failure carrying the status code and the response body text, after
exactly one physical call, with no wait and no retry. -/
theorem http_error_single_attempt (token method endpoint : String)
    (params : Option Params) (json_data : Option Json) (net : Nat → Attempt)
    (retries : Nat) (r : HttpResponse) (htok : token ≠ "")
    (hnet : net retries = .resp r) (h429 : r.status ≠ 429)
    (hno2 : r.status < 200 ∨ 300 ≤ r.status) :
    make_request token method endpoint params json_data net retries =
      { result := .failure
          ("HTTP error: " ++ toString r.status ++ " - " ++ r.bodyText),
        calls := 1, waits := [] } :=
  mr_http_error token method endpoint params json_data net retries r htok
    hnet h429 (by omega)

/-- Witness for C5: a 404 with body `Not found` yields the HTTP-error
failure after one call. -/
theorem http_error_single_attempt_witness :
    make_request "t" "GET" "/project/MISSING" none none
        (fun _ => .resp ⟨404, none, "Not found", .error "Expecting value"⟩) 0 =
      { result := .failure
          ("HTTP error: " ++ toString 404 ++ " - " ++ "Not found"),
        calls := 1, waits := [] } :=
  http_error_single_attempt "t" "GET" "/project/MISSING" none none _ 0
    ⟨404, none, "Not found", .error "Expecting value"⟩ (by decide) rfl
    (by decide) (by decide)

/-- C6: a transport-level failure (connection refused, DNS failure,
timeout — `httpx.RequestError` in the source) produces a failure carrying
the transport error description, after exactly one physical call, with no
retry. -/
theorem transport_error_single_attempt (token method endpoint : String)
    (params : Option Params) (json_data : Option Json) (net : Nat → Attempt)
    (retries : Nat) (msg : String) (htok : token ≠ "")
    (hnet : net retries = .transportErr msg) :
    make_request token method endpoint params json_data net retries =
      { result := .failure ("Request error: " ++ msg),
        calls := 1, waits := [] } :=
  mr_transport token method endpoint params json_data net retries msg htok
    hnet

/-- Witness for C6: a refused connection yields the transport failure
after one call. -/
theorem transport_error_single_attempt_witness :
    make_request "t" "GET" "/project" none none
        (fun _ => .transportErr "Connection refused") 0 =
      { result := .failure ("Request error: " ++ "Connection refused"),
        calls := 1, waits := [] } :=
  transport_error_single_attempt "t" "GET" "/project" none none _ 0
    "Connection refused" (by decide) rfl

/-- The exceptions that can be raised inside the `try` block of
`make_request`: `httpx.HTTPStatusError` from `raise_for_status`,
`httpx.RequestError` from the transport, and everything else caught by
the final `except Exception` clause (the `ValueError` from `int()` and
the JSON decode error from `response.json()`). -/
inductive PyExn where
  | httpStatusError (status : Nat) (text : String) : PyExn
  | requestError (msg : String) : PyExn
  | otherError (msg : String) : PyExn

/-- The three `except` clauses of `make_request`, each stringifying its
exception into an `{"error": ...}` dictionary. -/
def handleExn : PyExn → Response
  | .httpStatusError st text =>
      .failure ("HTTP error: " ++ toString st ++ " - " ++ text)
  | .requestError m => .failure ("Request error: " ++ m)
  | .otherError m => .failure ("Unexpected error: " ++ m)

/-- The body of the `try` block for one attempt, with raised exceptions
made explicit as `Except.error` values.  The recursive retry path calls
the full `make_request`, whose own exceptions are already handled
internally, so it contributes an `Except.ok` result. -/
def tryBody (token method endpoint : String) (params : Option Params)
    (json_data : Option Json) (net : Nat → Attempt) (retries : Nat) :
    Except PyExn Response × Nat × List Int :=
  match net retries with
  | .transportErr msg => (.error (.requestError msg), 1, [])
  | .resp r =>
      if r.status = 429 then
        if retries < MAX_RETRIES then
          match r.retryAfter with
          | none =>
              let rest := make_request token method endpoint params json_data
                net (retries + 1)
              (.ok rest.result, rest.calls + 1, RETRY_DELAY :: rest.waits)
          | some s =>
              match pyInt s with
              | some d =>
                  let rest := make_request token method endpoint params
                    json_data net (retries + 1)
                  (.ok rest.result, rest.calls + 1, d :: rest.waits)
              | none =>
                  (.error (.otherError
                    ("invalid literal for int() with base 10: '" ++ (s ++ "'"))),
                    1, [])
        else
          (.ok (.failure "Rate limit exceeded after maximum retries"), 1, [])
      else if 200 ≤ r.status ∧ r.status < 300 then
        match r.bodyJson with
        | .ok j => (.ok (.success j), 1, [])
        | .error m => (.error (.otherError m), 1, [])
      else
        (.error (.httpStatusError r.status r.bodyText), 1, [])

/-- The dispatcher `make_request` re-expressed as the source's control flow: the
precondition check, then the `try` body with every raised exception
routed through the `except` handlers — no exceptional value survives. -/
def make_request_handled (token method endpoint : String)
    (params : Option Params) (json_data : Option Json) (net : Nat → Attempt)
    (retries : Nat) : DispatchOutcome :=
  if token = "" then
    { result := .failure "QASE_API_TOKEN environment variable is not set",
      calls := 0, waits := [] }
  else
    match tryBody token method endpoint params json_data net retries with
    | (.ok resp, c, w) => { result := resp, calls := c, waits := w }
    | (.error e, c, w) => { result := handleExn e, calls := c, waits := w }

/-- The normalized result shape: a success wrapping a JSON value, or a
failure whose message is the configuration error, the rate-limit
exhaustion error, or the stringification of a caught exception. -/
def normalizedResponse (resp : Response) : Prop :=
  (∃ j, resp = .success j) ∨
  resp = .failure "QASE_API_TOKEN environment variable is not set" ∨
  resp = .failure "Rate limit exceeded after maximum retries" ∨
  ∃ e : PyExn, resp = handleExn e

/-- The dispatcher equals its handler-factored form: every exception the
try body can raise is consumed by an `except` clause. -/
theorem mr_handled (token method endpoint : String) (params : Option Params)
    (json_data : Option Json) (net : Nat → Attempt) (retries : Nat) :
    make_request token method endpoint params json_data net retries =
      make_request_handled token method endpoint params json_data net
        retries := by
  by_cases htok : token = ""
  · rw [make_request.eq_def]
    simp [make_request_handled, htok]
  · rw [make_request.eq_def]
    cases hnet : net retries with
    | transportErr m =>
        simp [make_request_handled, tryBody, htok, hnet, handleExn]
    | resp r =>
        by_cases h429 : r.status = 429
        · by_cases hlt : retries < MAX_RETRIES
          · cases hhdr : r.retryAfter with
            | none =>
                simp [make_request_handled, tryBody, htok, hnet, h429, hlt,
                  hhdr]
            | some s =>
                cases hpi : pyInt s with
                | some d =>
                    simp [make_request_handled, tryBody, htok, hnet, h429,
                      hlt, hhdr, hpi]
                | none =>
                    simp [make_request_handled, tryBody, htok, hnet, h429,
                      hlt, hhdr, hpi, handleExn]
                    rfl
          · simp [make_request_handled, tryBody, htok, hnet, h429, hlt]
        · by_cases h2 : 200 ≤ r.status ∧ r.status < 300
          · cases hbj : r.bodyJson with
            | ok j =>
                simp [make_request_handled, tryBody, htok, hnet, h429, h2,
                  hbj]
            | error m =>
                simp [make_request_handled, tryBody, htok, hnet, h429, h2,
                  hbj, handleExn]
          · simp [make_request_handled, tryBody, htok, hnet, h429, h2,
              handleExn]

/-- Every result of `make_request` is in normalized shape, at every retry
level: the dispatcher never returns anything but a success or one of the
five failure kinds. -/
theorem mr_normalized (token method endpoint : String)
    (params : Option Params) (json_data : Option Json) (net : Nat → Attempt)
    (retries : Nat) :
    normalizedResponse
      (make_request token method endpoint params json_data net
        retries).result := by
  by_cases htok : token = ""
  · subst htok
    rw [mr_no_token]
    exact Or.inr (Or.inl rfl)
  · cases hnet : net retries with
    | transportErr m =>
        rw [mr_transport token method endpoint params json_data net retries m
          htok hnet]
        exact Or.inr (Or.inr (Or.inr ⟨.requestError m, rfl⟩))
    | resp r =>
        by_cases h429 : r.status = 429
        · by_cases hlt : retries < MAX_RETRIES
          · cases hhdr : r.retryAfter with
            | none =>
                rw [mr_429_retry token method endpoint params json_data net
                  retries r RETRY_DELAY htok hnet h429 hlt (by rw [hhdr]; rfl)]
                exact mr_normalized token method endpoint params json_data net
                  (retries + 1)
            | some s =>
                cases hpi : pyInt s with
                | some d =>
                    rw [mr_429_retry token method endpoint params json_data
                      net retries r d htok hnet h429 hlt
                      (by rw [hhdr]; simpa [retryWait] using hpi)]
                    exact mr_normalized token method endpoint params json_data
                      net (retries + 1)
                | none =>
                    rw [mr_429_badheader token method endpoint params
                      json_data net retries r s htok hnet h429 hlt hhdr hpi]
                    exact Or.inr (Or.inr (Or.inr
                      ⟨.otherError
                        ("invalid literal for int() with base 10: '"
                          ++ (s ++ "'")), rfl⟩))
          · rw [mr_429_exhausted token method endpoint params json_data net
              retries r htok hnet h429 hlt]
            exact Or.inr (Or.inr (Or.inl rfl))
        · by_cases h2 : 200 ≤ r.status ∧ r.status < 300
          · cases hbj : r.bodyJson with
            | ok j =>
                rw [mr_2xx token method endpoint params json_data net retries
                  r htok hnet h2, hbj]
                exact Or.inl ⟨j, rfl⟩
            | error m =>
                rw [mr_2xx token method endpoint params json_data net retries
                  r htok hnet h2, hbj]
                exact Or.inr (Or.inr (Or.inr ⟨.otherError m, rfl⟩))
          · rw [mr_http_error token method endpoint params json_data net
              retries r htok hnet h429 h2]
            exact Or.inr (Or.inr (Or.inr
              ⟨.httpStatusError r.status r.bodyText, rfl⟩))
termination_by MAX_RETRIES - retries
decreasing_by all_goals omega

/-- C7: for every input and every behaviour of the network, the
dispatcher equals its handler-factored form — the try body's exceptions
are all consumed by the `except` clauses, so nothing escapes to the
caller — and the returned value is always a success or one of the five
normalized failure shapes with a human-readable message. -/
theorem dispatcher_never_raises_normalized (token method endpoint : String)
    (params : Option Params) (json_data : Option Json) (net : Nat → Attempt)
    (retries : Nat) :
    make_request token method endpoint params json_data net retries =
      make_request_handled token method endpoint params json_data net
        retries ∧
    normalizedResponse
      (make_request token method endpoint params json_data net
        retries).result :=
  ⟨mr_handled token method endpoint params json_data net retries,
   mr_normalized token method endpoint params json_data net retries⟩

/-- The number of physical calls is bounded by the remaining retry budget
plus one, and one wait is recorded per retry actually taken. -/
theorem mr_calls_bound (token method endpoint : String)
    (params : Option Params) (json_data : Option Json) (net : Nat → Attempt)
    (retries : Nat) :
    (make_request token method endpoint params json_data net retries).calls ≤
      (MAX_RETRIES - retries) + 1 ∧
    (make_request token method endpoint params json_data net
      retries).waits.length ≤ MAX_RETRIES - retries := by
  by_cases htok : token = ""
  · subst htok
    rw [mr_no_token]
    exact ⟨by simp only [MAX_RETRIES]; omega, by simp⟩
  · cases hnet : net retries with
    | transportErr m =>
        rw [mr_transport token method endpoint params json_data net retries m
          htok hnet]
        exact ⟨by simp only [MAX_RETRIES]; omega, by simp⟩
    | resp r =>
        by_cases h429 : r.status = 429
        · by_cases hlt : retries < MAX_RETRIES
          · cases hhdr : r.retryAfter with
            | none =>
                rw [mr_429_retry token method endpoint params json_data net
                  retries r RETRY_DELAY htok hnet h429 hlt (by rw [hhdr]; rfl)]
                have ih := mr_calls_bound token method endpoint params
                  json_data net (retries + 1)
                refine ⟨?_, ?_⟩
                · have := ih.1
                  simp only [MAX_RETRIES] at *
                  omega
                · have := ih.2
                  simp only [MAX_RETRIES, List.length_cons] at *
                  omega
            | some s =>
                cases hpi : pyInt s with
                | some d =>
                    rw [mr_429_retry token method endpoint params json_data
                      net retries r d htok hnet h429 hlt
                      (by rw [hhdr]; simpa [retryWait] using hpi)]
                    have ih := mr_calls_bound token method endpoint params
                      json_data net (retries + 1)
                    refine ⟨?_, ?_⟩
                    · have := ih.1
                      simp only [MAX_RETRIES] at *
                      omega
                    · have := ih.2
                      simp only [MAX_RETRIES, List.length_cons] at *
                      omega
                | none =>
                    rw [mr_429_badheader token method endpoint params
                      json_data net retries r s htok hnet h429 hlt hhdr hpi]
                    exact ⟨by simp only [MAX_RETRIES]; omega, by simp⟩
          · rw [mr_429_exhausted token method endpoint params json_data net
              retries r htok hnet h429 hlt]
            exact ⟨by simp only [MAX_RETRIES]; omega, by simp⟩
        · by_cases h2 : 200 ≤ r.status ∧ r.status < 300
          · cases hbj : r.bodyJson with
            | ok j =>
                rw [mr_2xx token method endpoint params json_data net retries
                  r htok hnet h2, hbj]
                exact ⟨by simp only [MAX_RETRIES]; omega, by simp⟩
            | error m =>
                rw [mr_2xx token method endpoint params json_data net retries
                  r htok hnet h2, hbj]
                exact ⟨by simp only [MAX_RETRIES]; omega, by simp⟩
          · rw [mr_http_error token method endpoint params json_data net
              retries r htok hnet h429 h2]
            exact ⟨by simp only [MAX_RETRIES]; omega, by simp⟩
termination_by MAX_RETRIES - retries
decreasing_by all_goals omega

/-- C8: every logical call terminates with a single outcome (the
embedding is a total function, accepted with the strictly decreasing
measure `MAX_RETRIES - retries`), and the recursion is bounded: a call
entered with counter `retries` issues at most `MAX_RETRIES - retries + 1`
physical attempts — at most 4 from the caller's entry point `retries = 0`
— with one recorded wait per retry taken. -/
theorem bounded_retry_recursion (token method endpoint : String)
    (params : Option Params) (json_data : Option Json) (net : Nat → Attempt)
    (retries : Nat) :
    (make_request token method endpoint params json_data net retries).calls ≤
      (MAX_RETRIES - retries) + 1 ∧
    (make_request token method endpoint params json_data net
      retries).waits.length ≤ MAX_RETRIES - retries ∧
    (make_request token method endpoint params json_data net 0).calls ≤
      MAX_RETRIES + 1 :=
  ⟨(mr_calls_bound token method endpoint params json_data net retries).1,
   (mr_calls_bound token method endpoint params json_data net retries).2,
   (mr_calls_bound token method endpoint params json_data net 0).1⟩

/-- Python truthiness guard `if v: d[key] = v` for an optional string
argument: skipped when the argument is `None` or the empty string. -/
def addIfS (ps : Params) (key : String) (v : Option String) : Params :=
  match v with
  | some s => if s = "" then ps else ps ++ [(key, .str s)]
  | none => ps

/-- Python truthiness guard `if v: d[key] = v` for an optional integer
argument: skipped when the argument is `None` or `0`. -/
def addIfI (ps : Params) (key : String) (v : Option Int) : Params :=
  match v with
  | some n => if n = 0 then ps else ps ++ [(key, .num n)]
  | none => ps

/-- Python truthiness guard for an optional list of strings: skipped when
the argument is `None` or the empty list. -/
def addIfLS (ps : Params) (key : String) (v : Option (List String)) : Params :=
  match v with
  | some l => if l.isEmpty then ps else ps ++ [(key, .arr (l.map .str))]
  | none => ps

/-- Python truthiness guard for an optional list of integers: skipped
when the argument is `None` or the empty list. -/
def addIfLI (ps : Params) (key : String) (v : Option (List Int)) : Params :=
  match v with
  | some l => if l.isEmpty then ps else ps ++ [(key, .arr (l.map .num))]
  | none => ps

/-- Python truthiness guard for an optional list of JSON objects: skipped
when the argument is `None` or the empty list. -/
def addIfLJ (ps : Params) (key : String) (v : Option (List Json)) : Params :=
  match v with
  | some l => if l.isEmpty then ps else ps ++ [(key, .arr l)]
  | none => ps

/-- Python `if v is not None: d[key] = v` for an optional string. -/
def addSomeS (ps : Params) (key : String) (v : Option String) : Params :=
  match v with
  | some s => ps ++ [(key, .str s)]
  | none => ps

/-- Python `if v is not None: d[key] = v` for an optional integer. -/
def addSomeI (ps : Params) (key : String) (v : Option Int) : Params :=
  match v with
  | some n => ps ++ [(key, .num n)]
  | none => ps

/-- Python `if v is not None: d[key] = v` for an optional string list. -/
def addSomeLS (ps : Params) (key : String) (v : Option (List String)) : Params :=
  match v with
  | some l => ps ++ [(key, .arr (l.map .str))]
  | none => ps

/-- Python `if v is not None: d[key] = v` for an optional JSON list. -/
def addSomeLJ (ps : Params) (key : String) (v : Option (List Json)) : Params :=
  match v with
  | some l => ps ++ [(key, .arr l)]
  | none => ps

/-- Query parameters built by `qase_list_test_cases`: `limit` and
`offset` always, then each filter added under its bracketed key only when
the argument is Python-truthy (`if filters_x:` in the source). -/
def qase_list_test_cases_params (limit offset : Int)
    (filters_priority filters_type filters_severity
      filters_automation : Option String) (filters_suite_id : Option Int)
    (filters_search : Option String) : Params :=
  let params : Params := [("limit", .num limit), ("offset", .num offset)]
  let params := addIfS params "filters[priority]" filters_priority
  let params := addIfS params "filters[type]" filters_type
  let params := addIfS params "filters[severity]" filters_severity
  let params := addIfS params "filters[automation]" filters_automation
  let params := addIfI params "filters[suite_id]" filters_suite_id
  let params := addIfS params "filters[search]" filters_search
  params

/-- JSON body built by `qase_create_test_case`: nine always-present
fields, then `suite_id`/`milestone_id` guarded by `is not None` and
`tags`/`steps`/`custom_fields` guarded by truthiness. -/
def qase_create_test_case_data (title description preconditions
      postconditions : String) (severity priority type_id behavior : Int)
    (automation : String) (suite_id milestone_id : Option Int)
    (tags : Option (List String)) (steps custom_fields : Option (List Json)) :
    Params :=
  let data : Params := [("title", .str title), ("description", .str description),
    ("preconditions", .str preconditions),
    ("postconditions", .str postconditions), ("severity", .num severity),
    ("priority", .num priority), ("type", .num type_id),
    ("behavior", .num behavior), ("automation", .str automation)]
  let data := addSomeI data "suite_id" suite_id
  let data := addSomeI data "milestone_id" milestone_id
  let data := addIfLS data "tags" tags
  let data := addIfLJ data "steps" steps
  let data := addIfLJ data "custom_fields" custom_fields
  data

/-- JSON body built by `qase_update_test_case`: starts empty and adds
each of the fourteen optional fields only under `is not None`. -/
def qase_update_test_case_data (title description preconditions
      postconditions : Option String)
    (severity priority type_id behavior : Option Int)
    (automation : Option String) (suite_id milestone_id : Option Int)
    (tags : Option (List String)) (steps custom_fields : Option (List Json)) :
    Params :=
  let data : Params := []
  let data := addSomeS data "title" title
  let data := addSomeS data "description" description
  let data := addSomeS data "preconditions" preconditions
  let data := addSomeS data "postconditions" postconditions
  let data := addSomeI data "severity" severity
  let data := addSomeI data "priority" priority
  let data := addSomeI data "type" type_id
  let data := addSomeI data "behavior" behavior
  let data := addSomeS data "automation" automation
  let data := addSomeI data "suite_id" suite_id
  let data := addSomeI data "milestone_id" milestone_id
  let data := addSomeLS data "tags" tags
  let data := addSomeLJ data "steps" steps
  let data := addSomeLJ data "custom_fields" custom_fields
  data

/-- JSON body built by `qase_create_test_plan`: `title` and `description`
always, `cases` only when Python-truthy (`if cases:` in the source). -/
def qase_create_test_plan_data (title description : String)
    (cases : Option (List Int)) : Params :=
  let data : Params := [("title", .str title), ("description", .str description)]
  let data := addIfLI data "cases" cases
  data

/-- Key membership through a truthiness-guarded string field. -/
theorem mem_keys_addIfS (k : String) (ps : Params) (key : String)
    (v : Option String) :
    k ∈ (addIfS ps key v).map Prod.fst ↔
      k ∈ ps.map Prod.fst ∨ (k = key ∧ ∃ s, v = some s ∧ s ≠ "") := by
  cases v with
  | none => simp [addIfS]
  | some s =>
      by_cases h : s = "" <;> simp [addIfS, h]

/-- Key membership through a truthiness-guarded integer field. -/
theorem mem_keys_addIfI (k : String) (ps : Params) (key : String)
    (v : Option Int) :
    k ∈ (addIfI ps key v).map Prod.fst ↔
      k ∈ ps.map Prod.fst ∨ (k = key ∧ ∃ n, v = some n ∧ n ≠ 0) := by
  cases v with
  | none => simp [addIfI]
  | some n =>
      by_cases h : n = 0 <;> simp [addIfI, h]

/-- Key membership through a truthiness-guarded string-list field. -/
theorem mem_keys_addIfLS (k : String) (ps : Params) (key : String)
    (v : Option (List String)) :
    k ∈ (addIfLS ps key v).map Prod.fst ↔
      k ∈ ps.map Prod.fst ∨ (k = key ∧ ∃ l, v = some l ∧ l ≠ []) := by
  cases v with
  | none => simp [addIfLS]
  | some l =>
      cases l with
      | nil => simp [addIfLS]
      | cons a t => simp [addIfLS]

/-- Key membership through a truthiness-guarded integer-list field. -/
theorem mem_keys_addIfLI (k : String) (ps : Params) (key : String)
    (v : Option (List Int)) :
    k ∈ (addIfLI ps key v).map Prod.fst ↔
      k ∈ ps.map Prod.fst ∨ (k = key ∧ ∃ l, v = some l ∧ l ≠ []) := by
  cases v with
  | none => simp [addIfLI]
  | some l =>
      cases l with
      | nil => simp [addIfLI]
      | cons a t => simp [addIfLI]

/-- Key membership through a truthiness-guarded JSON-list field. -/
theorem mem_keys_addIfLJ (k : String) (ps : Params) (key : String)
    (v : Option (List Json)) :
    k ∈ (addIfLJ ps key v).map Prod.fst ↔
      k ∈ ps.map Prod.fst ∨ (k = key ∧ ∃ l, v = some l ∧ l ≠ []) := by
  cases v with
  | none => simp [addIfLJ]
  | some l =>
      cases l with
      | nil => simp [addIfLJ]
      | cons a t => simp [addIfLJ]

/-- Key membership through an `is not None`-guarded string field. -/
theorem mem_keys_addSomeS (k : String) (ps : Params) (key : String)
    (v : Option String) :
    k ∈ (addSomeS ps key v).map Prod.fst ↔
      k ∈ ps.map Prod.fst ∨ (k = key ∧ v.isSome) := by
  cases v with
  | none => simp [addSomeS]
  | some s => simp [addSomeS]

/-- Key membership through an `is not None`-guarded integer field. -/
theorem mem_keys_addSomeI (k : String) (ps : Params) (key : String)
    (v : Option Int) :
    k ∈ (addSomeI ps key v).map Prod.fst ↔
      k ∈ ps.map Prod.fst ∨ (k = key ∧ v.isSome) := by
  cases v with
  | none => simp [addSomeI]
  | some n => simp [addSomeI]

/-- Key membership through an `is not None`-guarded string-list field. -/
theorem mem_keys_addSomeLS (k : String) (ps : Params) (key : String)
    (v : Option (List String)) :
    k ∈ (addSomeLS ps key v).map Prod.fst ↔
      k ∈ ps.map Prod.fst ∨ (k = key ∧ v.isSome) := by
  cases v with
  | none => simp [addSomeLS]
  | some l => simp [addSomeLS]

/-- Key membership through an `is not None`-guarded JSON-list field. -/
theorem mem_keys_addSomeLJ (k : String) (ps : Params) (key : String)
    (v : Option (List Json)) :
    k ∈ (addSomeLJ ps key v).map Prod.fst ↔
      k ∈ ps.map Prod.fst ∨ (k = key ∧ v.isSome) := by
  cases v with
  | none => simp [addSomeLJ]
  | some l => simp [addSomeLJ]

/-- The keys of a Python dict, in insertion order. -/
def keysOf (ps : Params) : List String := ps.map Prod.fst

/-- C9: in the cited tool operations, every optional caller argument left
unset (`none`) leaves its field entirely absent from the outgoing
query parameters (`qase_list_test_cases`) or JSON body
(`qase_update_test_case`) — it is not sent as null, since the key itself
never appears — and every key `qase_list_test_cases` can send is one of
`limit`, `offset`, or a bracketed `filters[...]` key. -/
theorem unset_optional_fields_never_sent (lp lo : Int)
    (fp ft fsev fa : Option String) (fsi : Option Int) (fse : Option String)
    (t dsc pre post : Option String) (sev pri ty beh : Option Int)
    (auto : Option String) (sid mid : Option Int)
    (tags : Option (List String)) (steps cfs : Option (List Json)) :
    (keysOf (qase_list_test_cases_params lp lo fp ft fsev fa fsi fse) ⊆
      ["limit", "offset", "filters[priority]", "filters[type]",
       "filters[severity]", "filters[automation]", "filters[suite_id]",
       "filters[search]"]) ∧
    (fp = none → "filters[priority]" ∉
      keysOf (qase_list_test_cases_params lp lo fp ft fsev fa fsi fse)) ∧
    (ft = none → "filters[type]" ∉
      keysOf (qase_list_test_cases_params lp lo fp ft fsev fa fsi fse)) ∧
    (fsev = none → "filters[severity]" ∉
      keysOf (qase_list_test_cases_params lp lo fp ft fsev fa fsi fse)) ∧
    (fa = none → "filters[automation]" ∉
      keysOf (qase_list_test_cases_params lp lo fp ft fsev fa fsi fse)) ∧
    (fsi = none → "filters[suite_id]" ∉
      keysOf (qase_list_test_cases_params lp lo fp ft fsev fa fsi fse)) ∧
    (fse = none → "filters[search]" ∉
      keysOf (qase_list_test_cases_params lp lo fp ft fsev fa fsi fse)) ∧
    (t = none → "title" ∉ keysOf (qase_update_test_case_data t dsc pre post
      sev pri ty beh auto sid mid tags steps cfs)) ∧
    (dsc = none → "description" ∉ keysOf (qase_update_test_case_data t dsc
      pre post sev pri ty beh auto sid mid tags steps cfs)) ∧
    (pre = none → "preconditions" ∉ keysOf (qase_update_test_case_data t dsc
      pre post sev pri ty beh auto sid mid tags steps cfs)) ∧
    (post = none → "postconditions" ∉ keysOf (qase_update_test_case_data t
      dsc pre post sev pri ty beh auto sid mid tags steps cfs)) ∧
    (sev = none → "severity" ∉ keysOf (qase_update_test_case_data t dsc pre
      post sev pri ty beh auto sid mid tags steps cfs)) ∧
    (pri = none → "priority" ∉ keysOf (qase_update_test_case_data t dsc pre
      post sev pri ty beh auto sid mid tags steps cfs)) ∧
    (ty = none → "type" ∉ keysOf (qase_update_test_case_data t dsc pre post
      sev pri ty beh auto sid mid tags steps cfs)) ∧
    (beh = none → "behavior" ∉ keysOf (qase_update_test_case_data t dsc pre
      post sev pri ty beh auto sid mid tags steps cfs)) ∧
    (auto = none → "automation" ∉ keysOf (qase_update_test_case_data t dsc
      pre post sev pri ty beh auto sid mid tags steps cfs)) ∧
    (sid = none → "suite_id" ∉ keysOf (qase_update_test_case_data t dsc pre
      post sev pri ty beh auto sid mid tags steps cfs)) ∧
    (mid = none → "milestone_id" ∉ keysOf (qase_update_test_case_data t dsc
      pre post sev pri ty beh auto sid mid tags steps cfs)) ∧
    (tags = none → "tags" ∉ keysOf (qase_update_test_case_data t dsc pre
      post sev pri ty beh auto sid mid tags steps cfs)) ∧
    (steps = none → "steps" ∉ keysOf (qase_update_test_case_data t dsc pre
      post sev pri ty beh auto sid mid tags steps cfs)) ∧
    (cfs = none → "custom_fields" ∉ keysOf (qase_update_test_case_data t dsc
      pre post sev pri ty beh auto sid mid tags steps cfs)) := by
  refine ⟨?_, ?_, ?_, ?_, ?_, ?_, ?_, ?_, ?_, ?_, ?_, ?_, ?_, ?_, ?_, ?_,
    ?_, ?_, ?_, ?_, ?_⟩
  case _ =>
    intro k hk
    simp only [keysOf, qase_list_test_cases_params, mem_keys_addIfS,
      mem_keys_addIfI, List.map_cons, List.map_nil, List.mem_cons,
      List.not_mem_nil, or_false] at hk
    simp only [List.mem_cons, List.not_mem_nil, or_false]
    tauto
  all_goals
    intro h
    subst h
    simp [keysOf, qase_list_test_cases_params, qase_update_test_case_data,
      mem_keys_addIfS, mem_keys_addIfI, mem_keys_addSomeS, mem_keys_addSomeI,
      mem_keys_addSomeLS, mem_keys_addSomeLJ, -List.mem_map]

/-- Witness for C9: with every optional argument unset, none of the
optional keys appear in the outgoing parameters or body. -/
theorem unset_optional_fields_never_sent_witness :
    ("filters[priority]" ∉
      keysOf (qase_list_test_cases_params 100 0 none none none none none
        none)) ∧
    ("filters[type]" ∉
      keysOf (qase_list_test_cases_params 100 0 none none none none none
        none)) ∧
    ("filters[severity]" ∉
      keysOf (qase_list_test_cases_params 100 0 none none none none none
        none)) ∧
    ("filters[automation]" ∉
      keysOf (qase_list_test_cases_params 100 0 none none none none none
        none)) ∧
    ("filters[suite_id]" ∉
      keysOf (qase_list_test_cases_params 100 0 none none none none none
        none)) ∧
    ("filters[search]" ∉
      keysOf (qase_list_test_cases_params 100 0 none none none none none
        none)) ∧
    ("title" ∉ keysOf (qase_update_test_case_data none none none none none
      none none none none none none none none none)) ∧
    ("suite_id" ∉ keysOf (qase_update_test_case_data none none none none
      none none none none none none none none none none)) ∧
    ("custom_fields" ∉ keysOf (qase_update_test_case_data none none none
      none none none none none none none none none none none)) := by
  obtain ⟨_, h1, h2, h3, h4, h5, h6, h7, _, _, _, _, _, _, _, _, h16, _,
    _, _, h20⟩ := unset_optional_fields_never_sent 100 0 none none none none
      none none none none none none none none none none none none none none
      none none
  exact ⟨h1 rfl, h2 rfl, h3 rfl, h4 rfl, h5 rfl, h6 rfl, h7 rfl, h16 rfl,
    h20 rfl⟩

/-- C10: optional arguments guarded by Python truthiness are dropped when
a falsy value is explicitly supplied — `filters_suite_id = 0` and
`filters_search = ""` in `qase_list_test_cases`, and `cases = []` in
`qase_create_test_plan`, are omitted exactly as if unset — whereas the
`is not None` guard in `qase_create_test_case` does send
`suite_id = 0`. -/
theorem falsy_values_omitted_by_truthiness_guards :
    ("filters[suite_id]" ∉
      keysOf (qase_list_test_cases_params 100 0 none none none none (some 0)
        none)) ∧
    ("filters[search]" ∉
      keysOf (qase_list_test_cases_params 100 0 none none none none none
        (some ""))) ∧
    ("cases" ∉ keysOf (qase_create_test_plan_data "Plan" "" (some []))) ∧
    ("suite_id" ∈ keysOf (qase_create_test_case_data "T" "" "" "" 4 2 1 2
      "is-not-automated" (some 0) none none none none)) := by
  refine ⟨?_, ?_, ?_, ?_⟩ <;> decide

end QaseMcp
